import Mathlib

/-!
# Formal model of `pkg/console/operator/sync_v400.go` (console-operator)

A shallow embedding of the reconciliation pipeline `sync_v400` and its six
resource-sync steps (route, service, configmap, secret, oauth client,
deployment), together with the status projector `setStatus` and the
consistency check `secretAndOauthMatch`.

Modelling conventions:
* A Go `error` value is `Option GoErr`; `nil` is `none`.  `GoErr` records the
  message and whether `apierrors.IsNotFound` holds of it.
* Go pointers that the code may return as `nil` are `Option _`; backend `Get`
  calls are modelled as returning a (possibly zero-valued) resource plus an
  error, as client-go does.
* The backend clients and the sub-resource helper functions that live outside
  this file's source (builders such as `DefaultRoute`, the apply helpers from
  `resourceapply`, `crypto.Random256BitsString`) are fields of an environment
  structure `Env`: a step's behaviour is quantified over every possible
  behaviour of these collaborators.
* The orchestrator is instrumented with a ghost trace: `syncRun` additionally
  returns the list of steps it invoked, in order, and the secret step
  additionally returns the list of backend calls it made.  `sync_v400` itself
  is the first projection and matches the Go function's return value.
-/

/-- A Go `error` value: its message together with whether
`apierrors.IsNotFound` holds of it. -/
structure GoErr where
  isNotFound : Bool
  msg : String
deriving DecidableEq

/-- `apierrors.IsNotFound` applied to a possibly-nil error: `false` on `nil`. -/
def isNotFoundErr : Option GoErr → Bool
  | some e => e.isNotFound
  | none => false

/-- Go `fmt` rendering of an error with the `%v` verb: a nil error interface
prints as `<nil>`, a non-nil error prints its message. -/
def errFmt : Option GoErr → String
  | some e => e.msg
  | none => "<nil>"

/-- `routev1.RouteSpec`: only `Host` is read by this file. -/
structure RouteSpec where
  host : String
deriving DecidableEq

/-- `routev1.Route`: only `Spec.Host` is read by this file. -/
structure Route where
  spec : RouteSpec
deriving DecidableEq

/-- `corev1.Service`: opaque to this file (only passed around). -/
structure Service where
  data : String
deriving DecidableEq

/-- `corev1.ConfigMap`: opaque to this file (only passed around). -/
structure ConfigMap where
  data : String
deriving DecidableEq

/-- `corev1.Secret`: modelled by the string value that
`secretsub.GetSecretString` extracts from it. -/
structure Secret where
  value : String
deriving DecidableEq

/-- `oauthv1.OAuthClient`: modelled by its secret string and its linkage to
the console route, which are the parts this file reads or rewrites. -/
structure OAuthClient where
  secret : String
  redirectHost : String
deriving DecidableEq

/-- `appsv1.Deployment`: opaque to this file (read and rewritten only through
the `Env` helper functions). -/
structure Deployment where
  data : String
deriving DecidableEq

/-- `operatorv1alpha1.VersionAvailability`: only `Version` is set here. -/
structure VersionAvailability where
  version : String
deriving DecidableEq

/-- `v1alpha1.ConsoleSpec`: the desired-state content read by the pipeline. -/
structure ConsoleSpec where
  version : String
deriving DecidableEq

/-- `v1alpha1.ConsoleStatus`: the two fields written by `setStatus`. -/
structure ConsoleStatus where
  defaultHostName : String
  oauthSecret : String
deriving DecidableEq

/-- `v1alpha1.Console`: the desired-state descriptor handed to a pass. -/
structure Console where
  spec : ConsoleSpec
  status : ConsoleStatus
deriving DecidableEq

/-- Modelled from the spec: `secretsub.GetSecretString` (its source,
`pkg/console/subresource/secret`, is not in the analysed tree).  Per §4.4 it
is a pure total accessor of the credential's string value; a missing (nil)
secret or a zero-valued secret yields the empty string. -/
def secretGetSecretString : Option Secret → String
  | some s => s.value
  | none => ""

/-- Modelled from the spec: `oauthsub.GetSecretString` (its source,
`pkg/console/subresource/oauthclient`, is not in the analysed tree).  Per
§4.4 it is a pure total accessor of the registration's secret string. -/
def oauthGetSecretString : Option OAuthClient → String
  | some c => c.secret
  | none => ""

/-- Modelled from the spec: `oauthsub.RegisterConsoleToOAuthClient` (source
not in the analysed tree).  Per §3/§4.2 it unconditionally rewrites the
registration's linkage: it must reference the route's host and carry the
credential's secret string. -/
def RegisterConsoleToOAuthClient (client : OAuthClient) (rt : Option Route)
    (secretString : String) : OAuthClient :=
  { client with
    secret := secretString
    redirectHost := match rt with | some r => r.spec.host | none => "" }

/-- The collaborators of one pass: the backend clients held on the
`ConsoleOperator` receiver and the sub-resource helpers imported from
packages outside this file.  Quantifying over an `Env` quantifies over every
adapter behaviour.  `Get` calls take only constant arguments
(`controller.TargetNamespace`, `Stub().Name`) in the source, so they are
modelled as fixed results. -/
structure Env where
  /-- `routesub.GetOrCreate(co.routeClient, r)`. -/
  GetOrCreateRoute : Route → Route × Bool × Option GoErr
  /-- `routesub.DefaultRoute(consoleConfig)`. -/
  DefaultRoute : Console → Route
  /-- `resourceapply.ApplyService(co.serviceClient, s)`. -/
  ApplyService : Service → Service × Bool × Option GoErr
  /-- `servicesub.DefaultService(consoleConfig)`. -/
  DefaultService : Console → Service
  /-- `resourceapply.ApplyConfigMap(co.configMapClient, c)`. -/
  ApplyConfigMap : ConfigMap → ConfigMap × Bool × Option GoErr
  /-- `configmapsub.DefaultConfigMap(consoleConfig, rt)`. -/
  DefaultConfigMap : Console → Option Route → ConfigMap
  /-- `co.secretsClient.Secrets(TargetNamespace).Get(Stub().Name, opts)`. -/
  getSecret : Secret × Option GoErr
  /-- `resourceapply.ApplySecret(co.secretsClient, s)`. -/
  ApplySecret : Secret → Secret × Bool × Option GoErr
  /-- `secretsub.DefaultSecret(consoleConfig, randomString)`. -/
  DefaultSecret : Console → String → Secret
  /-- `crypto.Random256BitsString()`. -/
  randomString : String
  /-- `co.oauthClient.OAuthClients().Get(Stub().Name, opts)`. -/
  getOAuthClient : OAuthClient × Option GoErr
  /-- `oauthsub.ApplyOAuth(co.oauthClient, c)`. -/
  ApplyOAuth : OAuthClient → OAuthClient × Bool × Option GoErr
  /-- `co.deploymentClient.Deployments(TargetNamespace).Get(Stub().Name, opts)`. -/
  getDeployment : Deployment × Option GoErr
  /-- `deploymentsub.DefaultDeployment(consoleConfig, cm, sec)`. -/
  DefaultDeployment : Console → Option ConfigMap → Option Secret → Deployment
  /-- `resourcemerge.ExpectedDeploymentGeneration(d, versionAvailability)`. -/
  ExpectedDeploymentGeneration : Deployment → VersionAvailability → Int
  /-- `resourceapply.ApplyDeployment(co.deploymentClient, d, gen, forceRollout)`. -/
  ApplyDeployment : Deployment → Int → Bool → Deployment × Bool × Option GoErr
  /-- `deploymentsub.ResourceVersionsChanged(d, cm, sec)`. -/
  ResourceVersionsChanged : Deployment → Option ConfigMap → Option Secret → Bool
  /-- `deploymentsub.UpdateResourceVersions(d, cm, sec)`. -/
  UpdateResourceVersions : Deployment → Option ConfigMap → Option Secret → Deployment

/-- Backend calls a step can make, for the ghost call trace. -/
inductive AdapterCall where
  | getSecretCall
  | applySecretCall
deriving DecidableEq

/-- The six steps of a pass, for the ghost invocation trace. -/
inductive StepName where
  | route
  | service
  | configmap
  | secret
  | oauth
  | deployment
deriving DecidableEq

/-- `SyncRoute` (sync_v400.go, lines 205-222): get-or-create the route, fail
on a backend error, and refuse to hand back a route whose `Spec.Host` is
still empty. -/
def SyncRoute (co : Env) (consoleConfig : Console) :
    Option Route × Bool × Option GoErr :=
  let r := co.GetOrCreateRoute (co.DefaultRoute consoleConfig)
  let rt := r.1
  let rtIsNew := r.2.1
  let rtErr := r.2.2
  match rtErr with
  | some e => (none, false, some e)
  | none =>
    if rt.spec.host.length == 0 then
      (none, false, some { isNotFound := false, msg := "Waiting on Route.Spec.Host" })
    else
      (some rt, rtIsNew, none)

/-- `SyncService` (sync_v400.go, lines 191-198): apply the default service. -/
def SyncService (co : Env) (consoleConfig : Console) :
    Option Service × Bool × Option GoErr :=
  let r := co.ApplyService (co.DefaultService consoleConfig)
  match r.2.2 with
  | some e => (none, false, some e)
  | none => (some r.1, r.2.1, none)

/-- `SyncConfigMap` (sync_v400.go, lines 180-187): apply the default
configmap built from the desired state and the route. -/
def SyncConfigMap (co : Env) (consoleConfig : Console) (rt : Option Route) :
    Option ConfigMap × Bool × Option GoErr :=
  let r := co.ApplyConfigMap (co.DefaultConfigMap consoleConfig rt)
  match r.2.2 with
  | some e => (none, false, some e)
  | none => (some r.1, r.2.1, none)

/-- `SyncSecret` (sync_v400.go, lines 162-175) with its ghost backend-call
trace: fetch the secret; if it is not found or its string value is empty,
apply a fresh default secret and return a terminating just-created error;
otherwise return the fetched secret unchanged. -/
def SyncSecretT (co : Env) (consoleConfig : Console) :
    (Option Secret × Bool × Option GoErr) × List AdapterCall :=
  let g := co.getSecret
  let secret := g.1
  let err := g.2
  if isNotFoundErr err || secretGetSecretString (some secret) == "" then
    let a := co.ApplySecret (co.DefaultSecret consoleConfig co.randomString)
    ((none, a.2.1, some (GoErr.mk false
        ("secret not found, creating new secret, create error = " ++ errFmt a.2.2))),
      [AdapterCall.getSecretCall, AdapterCall.applySecretCall])
  else
    match err with
    | some e => ((none, false, some e), [AdapterCall.getSecretCall])
    | none => ((some secret, false, none), [AdapterCall.getSecretCall])

/-- `SyncSecret`: the value the Go function returns (first projection of the
traced model). -/
def SyncSecret (co : Env) (consoleConfig : Console) :
    Option Secret × Bool × Option GoErr :=
  (SyncSecretT co consoleConfig).1

/-- `SyncOAuthClient` (sync_v400.go, lines 141-156): fetch the oauth client —
on ANY get failure return the fixed error `"oauth client for console does not
exist."` — then rewrite its console linkage and apply it. -/
def SyncOAuthClient (co : Env) (consoleConfig : Console) (sec : Option Secret)
    (rt : Option Route) : Option OAuthClient × Bool × Option GoErr :=
  let g := co.getOAuthClient
  match g.2 with
  | some _ =>
    (none, false, some { isNotFound := false, msg := "oauth client for console does not exist." })
  | none =>
    let registered := RegisterConsoleToOAuthClient g.1 rt (secretGetSecretString sec)
    let a := co.ApplyOAuth registered
    match a.2.2 with
    | some e => (none, false, some e)
    | none => (some a.1, a.2.1, none)

/-- `SyncDeployment` (sync_v400.go, lines 103-137): fetch the deployment; if
not found, apply the default deployment and return a terminating just-created
error; on another get failure propagate it; if the recorded configmap/secret
resource versions changed, update them and apply; otherwise leave it be. -/
def SyncDeployment (co : Env) (consoleConfig : Console) (cm : Option ConfigMap)
    (sec : Option Secret) : Option Deployment × Bool × Option GoErr :=
  let defaultDeployment := co.DefaultDeployment consoleConfig cm sec
  let versionAvailability : VersionAvailability := { version := consoleConfig.spec.version }
  let deploymentGeneration := co.ExpectedDeploymentGeneration defaultDeployment versionAvailability
  let g := co.getDeployment
  let existingDeployment := g.1
  let getDepErr := g.2
  if isNotFoundErr getDepErr then
    let a := co.ApplyDeployment defaultDeployment deploymentGeneration true
    (none, a.2.1, some (GoErr.mk false
      ("deployment not found, creating new deployment, create error = " ++ errFmt a.2.2)))
  else
    match getDepErr with
    | some e => (none, false, some e)
    | none =>
      if co.ResourceVersionsChanged existingDeployment cm sec then
        let toUpdate := co.UpdateResourceVersions existingDeployment cm sec
        let a := co.ApplyDeployment toUpdate deploymentGeneration true
        match a.2.2 with
        | some e => (none, false, some e)
        | none => (some a.1, a.2.1, none)
      else
        (some existingDeployment, false, none)

/-- `sync_v400` (sync_v400.go, lines 41-101) with its ghost invocation trace:
run the six steps in order — route, service, configmap, secret, oauth,
deployment — accumulating `toUpdate` after each successful step and returning
`(consoleConfig, toUpdate, err)` immediately when a step errs.  The second
component records which steps were invoked, in order. -/
def syncRun (co : Env) (consoleConfig : Console) :
    (Console × Bool × Option GoErr) × List StepName :=
  let r := SyncRoute co consoleConfig
  let rt := r.1
  match r.2.2 with
  | some e => ((consoleConfig, false, some e), [StepName.route])
  | none =>
    let toUpdate := false || r.2.1
    let s := SyncService co consoleConfig
    match s.2.2 with
    | some e => ((consoleConfig, toUpdate, some e), [StepName.route, StepName.service])
    | none =>
      let toUpdate := toUpdate || s.2.1
      let c := SyncConfigMap co consoleConfig rt
      let cm := c.1
      match c.2.2 with
      | some e => ((consoleConfig, toUpdate, some e),
          [StepName.route, StepName.service, StepName.configmap])
      | none =>
        let toUpdate := toUpdate || c.2.1
        let se := SyncSecret co consoleConfig
        let sec := se.1
        match se.2.2 with
        | some e => ((consoleConfig, toUpdate, some e),
            [StepName.route, StepName.service, StepName.configmap, StepName.secret])
        | none =>
          let toUpdate := toUpdate || se.2.1
          let o := SyncOAuthClient co consoleConfig sec rt
          match o.2.2 with
          | some e => ((consoleConfig, toUpdate, some e),
              [StepName.route, StepName.service, StepName.configmap, StepName.secret,
               StepName.oauth])
          | none =>
            let toUpdate := toUpdate || o.2.1
            let d := SyncDeployment co consoleConfig cm sec
            match d.2.2 with
            | some e => ((consoleConfig, toUpdate, some e),
                [StepName.route, StepName.service, StepName.configmap, StepName.secret,
                 StepName.oauth, StepName.deployment])
            | none =>
              let toUpdate := toUpdate || d.2.1
              ((consoleConfig, toUpdate, none),
                [StepName.route, StepName.service, StepName.configmap, StepName.secret,
                 StepName.oauth, StepName.deployment])

/-- `sync_v400`: the triple the Go function returns (first projection of the
traced orchestrator). -/
def sync_v400 (co : Env) (consoleConfig : Console) : Console × Bool × Option GoErr :=
  (syncRun co consoleConfig).1

/-- The ghost invocation trace of a pass: which steps ran, in order. -/
def sync_v400_steps (co : Env) (consoleConfig : Console) : List StepName :=
  (syncRun co consoleConfig).2

/-- `secretAndOauthMatch` (sync_v400.go, lines 224-228). -/
def secretAndOauthMatch (secret : Option Secret) (client : Option OAuthClient) : Bool :=
  let secretString := secretGetSecretString secret
  let clientSecretString := oauthGetSecretString client
  secretString == clientSecretString

/-- `setStatus` (sync_v400.go, lines 270-288).  The Go function receives `cs`
by value, writes `cs.DefaultHostName` and `cs.OAuthSecret` on that local
copy, and returns nothing; the model returns the local copy's final value.
`rt` is a pointer in Go and `rt.Spec.Host` dereferences it unconditionally,
so a nil route is a nil-pointer panic, modelled as `none`. -/
def setStatus (cs : ConsoleStatus) (svc : Option Service) (rt : Option Route)
    (cm : Option ConfigMap) (dep : Option Deployment) (oa : Option OAuthClient)
    (sec : Option Secret) : Option ConsoleStatus :=
  match rt with
  | none => none
  | some rtv =>
    let cs := if rtv.spec.host != "" then
        { cs with defaultHostName := rtv.spec.host }
      else
        { cs with defaultHostName := "" }
    let cs := if secretAndOauthMatch sec oa then
        { cs with oauthSecret := "valid" }
      else
        { cs with oauthSecret := "mismatch" }
    some cs

/-- The status value the CALLER of `setStatus` observes after the call.  Go
passes `cs v1alpha1.ConsoleStatus` by value (sync_v400.go, line 270), so the
callee's assignments land on a copy and the caller's struct is what it was
before the call. -/
def setStatusCallerView (cs : ConsoleStatus) (svc : Option Service) (rt : Option Route)
    (cm : Option ConfigMap) (dep : Option Deployment) (oa : Option OAuthClient)
    (sec : Option Secret) : ConsoleStatus :=
  cs

/-- A route whose host the backend has populated. -/
def rtHosted : Route := { spec := { host := "console.example.com" } }

/-- A desired-state descriptor used as a concrete fixture. -/
def cfg0 : Console :=
  { spec := { version := "4.0" }
    status := { defaultHostName := "", oauthSecret := "" } }

/-- A generic transient backend failure (not a not-found). -/
def eBoom : GoErr := { isNotFound := false, msg := "connection refused" }

/-- A not-found get failure. -/
def eNF : GoErr := { isNotFound := true, msg := "not found" }

/-- A benign adapter behaviour: every resource exists, is converged and
applies cleanly; the stored secret is non-empty. -/
def envBase : Env where
  GetOrCreateRoute := fun _ => (rtHosted, false, none)
  DefaultRoute := fun _ => { spec := { host := "" } }
  ApplyService := fun s => (s, false, none)
  DefaultService := fun _ => { data := "svc" }
  ApplyConfigMap := fun c => (c, false, none)
  DefaultConfigMap := fun _ _ => { data := "cm" }
  getSecret := ({ value := "sek" }, none)
  ApplySecret := fun s => (s, true, none)
  DefaultSecret := fun _ r => { value := r }
  randomString := "rnd"
  getOAuthClient := ({ secret := "sek", redirectHost := "" }, none)
  ApplyOAuth := fun c => (c, false, none)
  getDeployment := ({ data := "dep" }, none)
  DefaultDeployment := fun _ _ _ => { data := "ddep" }
  ExpectedDeploymentGeneration := fun _ _ => 0
  ApplyDeployment := fun d _ _ => (d, false, none)
  ResourceVersionsChanged := fun _ _ _ => false
  UpdateResourceVersions := fun d _ _ => d

/-- Adapter whose route get-or-create fails transiently. -/
def envRouteErr : Env := { envBase with GetOrCreateRoute := fun _ => (rtHosted, false, some eBoom) }

/-- Adapter whose route exists but has no host yet. -/
def envHostless : Env :=
  { envBase with GetOrCreateRoute := fun _ => ({ spec := { host := "" } }, true, none) }

/-- Adapter whose service apply fails transiently. -/
def envSvcErr : Env := { envBase with ApplyService := fun s => (s, false, some eBoom) }

/-- Adapter whose configmap apply fails transiently. -/
def envCmErr : Env := { envBase with ApplyConfigMap := fun c => (c, false, some eBoom) }

/-- Adapter whose secret get fails transiently while still returning a
non-empty secret value. -/
def envSecretGetErr : Env := { envBase with getSecret := ({ value := "sek" }, some eBoom) }

/-- Adapter whose secret get fails transiently and returns a zero-valued
(empty-string) secret, as client-go does on failure. -/
def envSecretGetErrEmpty : Env := { envBase with getSecret := ({ value := "" }, some eBoom) }

/-- Adapter with no stored secret: the get reports not-found. -/
def envSecretNF : Env := { envBase with getSecret := ({ value := "" }, some eNF) }

/-- Adapter whose oauth-client get fails transiently. -/
def envOauthGetErr : Env :=
  { envBase with getOAuthClient := ({ secret := "", redirectHost := "" }, some eBoom) }

/-- Adapter whose oauth apply fails transiently. -/
def envOauthApplyErr : Env := { envBase with ApplyOAuth := fun c => (c, false, some eBoom) }

/-- Adapter whose deployment get fails transiently. -/
def envDepGetErr : Env := { envBase with getDeployment := ({ data := "dep" }, some eBoom) }

/-- Adapter with no stored deployment: the get reports not-found. -/
def envDepNF : Env := { envBase with getDeployment := ({ data := "dep" }, some eNF) }

/-- Adapter with no stored deployment whose create-apply also fails. -/
def envDepNFCreateErr : Env :=
  { envBase with
    getDeployment := ({ data := "dep" }, some eNF)
    ApplyDeployment := fun d _ _ => (d, true, some (GoErr.mk false "quota exceeded")) }

/-- Adapter whose deployment has stale resource-version markers and whose
update-apply fails transiently. -/
def envDepUpdErr : Env :=
  { envBase with
    ResourceVersionsChanged := fun _ _ _ => true
    ApplyDeployment := fun d _ _ => (d, false, some eBoom) }

/-- Adapter where the service apply reports a change and everything else is
converged. -/
def envSvcChanged : Env := { envBase with ApplyService := fun s => (s, true, none) }

/-- C1: for every desired state and adapter behaviour, if the k-th sync step
(order: route, service, configmap, secret, oauth client, deployment) returns
a non-nil error — which is also how a just-created signal is delivered —
then none of steps k+1..n are invoked in that pass and `sync_v400` returns
immediately with the original `consoleConfig`, the changed-flags accumulated
before step k, and that error. -/
theorem sync_v400_short_circuits (co : Env) (cfg : Console) :
    (∀ e, (SyncRoute co cfg).2.2 = some e →
      syncRun co cfg = ((cfg, false, some e), [StepName.route])) ∧
    (∀ e, (SyncRoute co cfg).2.2 = none → (SyncService co cfg).2.2 = some e →
      syncRun co cfg = ((cfg, (SyncRoute co cfg).2.1, some e),
        [StepName.route, StepName.service])) ∧
    (∀ e, (SyncRoute co cfg).2.2 = none → (SyncService co cfg).2.2 = none →
      (SyncConfigMap co cfg (SyncRoute co cfg).1).2.2 = some e →
      syncRun co cfg =
        ((cfg, (SyncRoute co cfg).2.1 || (SyncService co cfg).2.1, some e),
         [StepName.route, StepName.service, StepName.configmap])) ∧
    (∀ e, (SyncRoute co cfg).2.2 = none → (SyncService co cfg).2.2 = none →
      (SyncConfigMap co cfg (SyncRoute co cfg).1).2.2 = none →
      (SyncSecret co cfg).2.2 = some e →
      syncRun co cfg =
        ((cfg, (SyncRoute co cfg).2.1 || (SyncService co cfg).2.1 ||
            (SyncConfigMap co cfg (SyncRoute co cfg).1).2.1, some e),
         [StepName.route, StepName.service, StepName.configmap, StepName.secret])) ∧
    (∀ e, (SyncRoute co cfg).2.2 = none → (SyncService co cfg).2.2 = none →
      (SyncConfigMap co cfg (SyncRoute co cfg).1).2.2 = none →
      (SyncSecret co cfg).2.2 = none →
      (SyncOAuthClient co cfg (SyncSecret co cfg).1 (SyncRoute co cfg).1).2.2 = some e →
      syncRun co cfg =
        ((cfg, (SyncRoute co cfg).2.1 || (SyncService co cfg).2.1 ||
            (SyncConfigMap co cfg (SyncRoute co cfg).1).2.1 || (SyncSecret co cfg).2.1, some e),
         [StepName.route, StepName.service, StepName.configmap, StepName.secret,
          StepName.oauth])) ∧
    (∀ e, (SyncRoute co cfg).2.2 = none → (SyncService co cfg).2.2 = none →
      (SyncConfigMap co cfg (SyncRoute co cfg).1).2.2 = none →
      (SyncSecret co cfg).2.2 = none →
      (SyncOAuthClient co cfg (SyncSecret co cfg).1 (SyncRoute co cfg).1).2.2 = none →
      (SyncDeployment co cfg (SyncConfigMap co cfg (SyncRoute co cfg).1).1
          (SyncSecret co cfg).1).2.2 = some e →
      syncRun co cfg =
        ((cfg, (SyncRoute co cfg).2.1 || (SyncService co cfg).2.1 ||
            (SyncConfigMap co cfg (SyncRoute co cfg).1).2.1 || (SyncSecret co cfg).2.1 ||
            (SyncOAuthClient co cfg (SyncSecret co cfg).1 (SyncRoute co cfg).1).2.1, some e),
         [StepName.route, StepName.service, StepName.configmap, StepName.secret,
          StepName.oauth, StepName.deployment])) := by
  refine ⟨?_, ?_, ?_, ?_, ?_, ?_⟩
  · intro e h1
    simp only [syncRun, h1]
  · intro e h1 h2
    simp only [syncRun, h1, h2, Bool.false_or]
  · intro e h1 h2 h3
    simp only [syncRun, h1, h2, h3, Bool.false_or]
  · intro e h1 h2 h3 h4
    simp only [syncRun, h1, h2, h3, h4, Bool.false_or, Bool.or_assoc]
  · intro e h1 h2 h3 h4 h5
    simp only [syncRun, h1, h2, h3, h4, h5, Bool.false_or, Bool.or_assoc]
  · intro e h1 h2 h3 h4 h5 h6
    simp only [syncRun, h1, h2, h3, h4, h5, h6, Bool.false_or, Bool.or_assoc]

/-- Witness for C1: each of the six short-circuit cases evaluated on a
concrete failing adapter. -/
theorem sync_v400_short_circuits_witness :
    syncRun envRouteErr cfg0 = ((cfg0, false, some eBoom), [StepName.route]) ∧
    syncRun envSvcErr cfg0 = ((cfg0, false, some eBoom), [StepName.route, StepName.service]) ∧
    syncRun envCmErr cfg0 =
      ((cfg0, false, some eBoom), [StepName.route, StepName.service, StepName.configmap]) ∧
    syncRun envSecretGetErr cfg0 =
      ((cfg0, false, some eBoom),
       [StepName.route, StepName.service, StepName.configmap, StepName.secret]) ∧
    syncRun envOauthGetErr cfg0 =
      ((cfg0, false, some (GoErr.mk false "oauth client for console does not exist.")),
       [StepName.route, StepName.service, StepName.configmap, StepName.secret, StepName.oauth]) ∧
    syncRun envDepGetErr cfg0 =
      ((cfg0, false, some eBoom),
       [StepName.route, StepName.service, StepName.configmap, StepName.secret, StepName.oauth,
        StepName.deployment]) :=
  ⟨(sync_v400_short_circuits envRouteErr cfg0).1 eBoom rfl,
   (sync_v400_short_circuits envSvcErr cfg0).2.1 eBoom rfl rfl,
   (sync_v400_short_circuits envCmErr cfg0).2.2.1 eBoom rfl rfl rfl,
   (sync_v400_short_circuits envSecretGetErr cfg0).2.2.2.1 eBoom rfl rfl rfl rfl,
   (sync_v400_short_circuits envOauthGetErr cfg0).2.2.2.2.1
     (GoErr.mk false "oauth client for console does not exist.") rfl rfl rfl rfl rfl,
   (sync_v400_short_circuits envDepGetErr cfg0).2.2.2.2.2 eBoom rfl rfl rfl rfl rfl rfl⟩

/-- C2 counterexample: a pass in which the secret step signals
"created for the first time" with its own changed result `true` (the apply
reported a creation), yet `sync_v400` returns `changed = false`: the
orchestrator checks the error and returns before OR-ing the just-created
step's changed flag into the accumulator. -/
theorem sync_v400_created_changed_counterexample :
    isNotFoundErr (envSecretNF.getSecret).2 = true ∧
    SyncSecret envSecretNF cfg0 =
      (none, true,
       some (GoErr.mk false "secret not found, creating new secret, create error = <nil>")) ∧
    sync_v400 envSecretNF cfg0 =
      (cfg0, false,
       some (GoErr.mk false "secret not found, creating new secret, create error = <nil>")) ∧
    sync_v400_steps envSecretNF cfg0 =
      [StepName.route, StepName.service, StepName.configmap, StepName.secret] :=
  ⟨rfl, rfl, rfl, rfl⟩

/-- C2 (amended): when the secret or deployment step signals created for the
first time, `sync_v400` returns early with the just-created error, and the
changed flag it returns is the accumulation of the changed-flags of the steps
that completed BEFORE the just-created step only — the just-created step's
own changed result is not included. -/
theorem sync_v400_created_stops_early (co : Env) (cfg : Console) :
    ((SyncRoute co cfg).2.2 = none → (SyncService co cfg).2.2 = none →
      (SyncConfigMap co cfg (SyncRoute co cfg).1).2.2 = none →
      isNotFoundErr (co.getSecret).2 = true →
      sync_v400 co cfg =
        (cfg, (SyncRoute co cfg).2.1 || (SyncService co cfg).2.1 ||
            (SyncConfigMap co cfg (SyncRoute co cfg).1).2.1,
         some (GoErr.mk false ("secret not found, creating new secret, create error = " ++
           errFmt (co.ApplySecret (co.DefaultSecret cfg co.randomString)).2.2))) ∧
      sync_v400_steps co cfg =
        [StepName.route, StepName.service, StepName.configmap, StepName.secret]) ∧
    ((SyncRoute co cfg).2.2 = none → (SyncService co cfg).2.2 = none →
      (SyncConfigMap co cfg (SyncRoute co cfg).1).2.2 = none →
      (SyncSecret co cfg).2.2 = none →
      (SyncOAuthClient co cfg (SyncSecret co cfg).1 (SyncRoute co cfg).1).2.2 = none →
      isNotFoundErr (co.getDeployment).2 = true →
      sync_v400 co cfg =
        (cfg, (SyncRoute co cfg).2.1 || (SyncService co cfg).2.1 ||
            (SyncConfigMap co cfg (SyncRoute co cfg).1).2.1 || (SyncSecret co cfg).2.1 ||
            (SyncOAuthClient co cfg (SyncSecret co cfg).1 (SyncRoute co cfg).1).2.1,
         some (GoErr.mk false ("deployment not found, creating new deployment, create error = " ++
           errFmt (co.ApplyDeployment
              (co.DefaultDeployment cfg (SyncConfigMap co cfg (SyncRoute co cfg).1).1
                (SyncSecret co cfg).1)
              (co.ExpectedDeploymentGeneration
                (co.DefaultDeployment cfg (SyncConfigMap co cfg (SyncRoute co cfg).1).1
                  (SyncSecret co cfg).1)
                { version := cfg.spec.version }) true).2.2))) ∧
      sync_v400_steps co cfg =
        [StepName.route, StepName.service, StepName.configmap, StepName.secret, StepName.oauth,
         StepName.deployment]) := by
  constructor
  · intro h1 h2 h3 h4
    have hsec : SyncSecret co cfg =
        (none, (co.ApplySecret (co.DefaultSecret cfg co.randomString)).2.1,
         some (GoErr.mk false ("secret not found, creating new secret, create error = " ++
           errFmt (co.ApplySecret (co.DefaultSecret cfg co.randomString)).2.2))) := by
      simp [SyncSecret, SyncSecretT, h4]
    constructor
    · simp only [sync_v400, syncRun, h1, h2, h3, hsec, Bool.false_or, Bool.or_assoc]
    · simp only [sync_v400_steps, syncRun, h1, h2, h3, hsec]
  · intro h1 h2 h3 h4 h5 h6
    have hdep : SyncDeployment co cfg (SyncConfigMap co cfg (SyncRoute co cfg).1).1
        (SyncSecret co cfg).1 =
        (none, (co.ApplyDeployment
            (co.DefaultDeployment cfg (SyncConfigMap co cfg (SyncRoute co cfg).1).1
              (SyncSecret co cfg).1)
            (co.ExpectedDeploymentGeneration
              (co.DefaultDeployment cfg (SyncConfigMap co cfg (SyncRoute co cfg).1).1
                (SyncSecret co cfg).1)
              { version := cfg.spec.version }) true).2.1,
         some (GoErr.mk false ("deployment not found, creating new deployment, create error = " ++
           errFmt (co.ApplyDeployment
              (co.DefaultDeployment cfg (SyncConfigMap co cfg (SyncRoute co cfg).1).1
                (SyncSecret co cfg).1)
              (co.ExpectedDeploymentGeneration
                (co.DefaultDeployment cfg (SyncConfigMap co cfg (SyncRoute co cfg).1).1
                  (SyncSecret co cfg).1)
                { version := cfg.spec.version }) true).2.2))) := by
      simp [SyncDeployment, h6]
    constructor
    · simp only [sync_v400, syncRun, h1, h2, h3, h4, h5, hdep, Bool.false_or, Bool.or_assoc]
    · simp only [sync_v400_steps, syncRun, h1, h2, h3, h4, h5, hdep]

/-- Witness for the amended C2: the secret and deployment just-created cases
on concrete adapters (all prior steps converged, so the returned changed flag
is `false` even though a resource was created). -/
theorem sync_v400_created_stops_early_witness :
    (sync_v400 envSecretNF cfg0 =
      (cfg0, false,
       some (GoErr.mk false "secret not found, creating new secret, create error = <nil>")) ∧
     sync_v400_steps envSecretNF cfg0 =
      [StepName.route, StepName.service, StepName.configmap, StepName.secret]) ∧
    (sync_v400 envDepNF cfg0 =
      (cfg0, false,
       some (GoErr.mk false "deployment not found, creating new deployment, create error = <nil>")) ∧
     sync_v400_steps envDepNF cfg0 =
      [StepName.route, StepName.service, StepName.configmap, StepName.secret, StepName.oauth,
       StepName.deployment]) :=
  ⟨(sync_v400_created_stops_early envSecretNF cfg0).1 rfl rfl rfl rfl,
   (sync_v400_created_stops_early envDepNF cfg0).2 rfl rfl rfl rfl rfl rfl⟩

/-- C3: if the stored secret exists (the get succeeds) and its string value
is non-empty, `SyncSecret` makes no create/update call against the backend —
its ghost call trace is exactly the one get — and returns the existing secret
with `changed = false` and no error, for every adapter behaviour and every
desired-state content. -/
theorem SyncSecret_no_write (co : Env) (cfg : Console) (s : Secret) :
    co.getSecret = (s, none) → s.value ≠ "" →
    SyncSecretT co cfg = ((some s, false, none), [AdapterCall.getSecretCall]) := by
  intro hget hs
  simp [SyncSecretT, hget, isNotFoundErr, secretGetSecretString, hs]

/-- Witness for C3: the benign adapter stores the non-empty secret `"sek"`. -/
theorem SyncSecret_no_write_witness :
    SyncSecretT envBase cfg0 =
      ((some { value := "sek" }, false, none), [AdapterCall.getSecretCall]) :=
  SyncSecret_no_write envBase cfg0 { value := "sek" } rfl (by decide)

/-- C4 counterexample: a non-not-found oauth-client get failure (a transient
`"connection refused"`) is NOT propagated verbatim: `SyncOAuthClient` returns
the fixed substitute error `"oauth client for console does not exist."`. -/
theorem SyncOAuthClient_substitute_counterexample :
    (envOauthGetErr.getOAuthClient).2 = some eBoom ∧ eBoom.isNotFound = false ∧
    SyncOAuthClient envOauthGetErr cfg0 (some { value := "sek" }) (some rtHosted) =
      (none, false, some (GoErr.mk false "oauth client for console does not exist.")) ∧
    GoErr.mk false "oauth client for console does not exist." ≠ eBoom := by
  refine ⟨rfl, rfl, rfl, ?_⟩
  decide

/-- C4 (amended): adapter get/apply failures whose reason is not "not found"
are propagated verbatim by the failing step — route get-or-create, service
apply, configmap apply, secret get when the fetched secret's value is
non-empty, oauth apply, deployment get, deployment update-apply — with these
exceptions: any oauth-client get failure is replaced by the fixed error
`"oauth client for console does not exist."`; a secret get failure whose
fetched secret value is empty, and a failing create-apply in the secret or
deployment create-on-not-found branch, are folded into the respective
just-created error message. -/
theorem step_error_propagation (co : Env) (cfg : Console) :
    (∀ e, (co.GetOrCreateRoute (co.DefaultRoute cfg)).2.2 = some e →
      SyncRoute co cfg = (none, false, some e)) ∧
    (∀ e, (co.ApplyService (co.DefaultService cfg)).2.2 = some e →
      SyncService co cfg = (none, false, some e)) ∧
    (∀ rt e, (co.ApplyConfigMap (co.DefaultConfigMap cfg rt)).2.2 = some e →
      SyncConfigMap co cfg rt = (none, false, some e)) ∧
    (∀ s e, co.getSecret = (s, some e) → e.isNotFound = false → s.value ≠ "" →
      SyncSecret co cfg = (none, false, some e)) ∧
    (∀ s e, co.getSecret = (s, some e) → e.isNotFound = false → s.value = "" →
      SyncSecret co cfg =
        (none, (co.ApplySecret (co.DefaultSecret cfg co.randomString)).2.1,
         some (GoErr.mk false ("secret not found, creating new secret, create error = " ++
           errFmt (co.ApplySecret (co.DefaultSecret cfg co.randomString)).2.2)))) ∧
    (∀ e sec rt, (co.getOAuthClient).2 = some e →
      SyncOAuthClient co cfg sec rt =
        (none, false, some (GoErr.mk false "oauth client for console does not exist."))) ∧
    (∀ sec rt e, (co.getOAuthClient).2 = none →
      (co.ApplyOAuth (RegisterConsoleToOAuthClient (co.getOAuthClient).1 rt
          (secretGetSecretString sec))).2.2 = some e →
      SyncOAuthClient co cfg sec rt = (none, false, some e)) ∧
    (∀ cm sec d e, co.getDeployment = (d, some e) → e.isNotFound = false →
      SyncDeployment co cfg cm sec = (none, false, some e)) ∧
    (∀ cm sec d, co.getDeployment = (d, none) → co.ResourceVersionsChanged d cm sec = true →
      ∀ e, (co.ApplyDeployment (co.UpdateResourceVersions d cm sec)
          (co.ExpectedDeploymentGeneration (co.DefaultDeployment cfg cm sec)
            { version := cfg.spec.version }) true).2.2 = some e →
      SyncDeployment co cfg cm sec = (none, false, some e)) ∧
    (∀ cm sec d e, co.getDeployment = (d, some e) → e.isNotFound = true →
      SyncDeployment co cfg cm sec =
        (none, (co.ApplyDeployment (co.DefaultDeployment cfg cm sec)
            (co.ExpectedDeploymentGeneration (co.DefaultDeployment cfg cm sec)
              { version := cfg.spec.version }) true).2.1,
         some (GoErr.mk false ("deployment not found, creating new deployment, create error = " ++
           errFmt (co.ApplyDeployment (co.DefaultDeployment cfg cm sec)
              (co.ExpectedDeploymentGeneration (co.DefaultDeployment cfg cm sec)
                { version := cfg.spec.version }) true).2.2)))) := by
  refine ⟨?_, ?_, ?_, ?_, ?_, ?_, ?_, ?_, ?_, ?_⟩
  · intro e h
    simp only [SyncRoute, h]
  · intro e h
    simp only [SyncService, h]
  · intro rt e h
    simp only [SyncConfigMap, h]
  · intro s e hget hnf hne
    simp [SyncSecret, SyncSecretT, hget, isNotFoundErr, hnf, secretGetSecretString, hne]
  · intro s e hget hnf hemp
    simp [SyncSecret, SyncSecretT, hget, isNotFoundErr, hnf, secretGetSecretString, hemp]
  · intro e sec rt h
    simp only [SyncOAuthClient, h]
  · intro sec rt e hg ha
    simp only [SyncOAuthClient, hg, ha]
  · intro cm sec d e hget hnf
    simp [SyncDeployment, hget, isNotFoundErr, hnf]
  · intro cm sec d hget hvc e ha
    simp [SyncDeployment, hget, isNotFoundErr, hvc, ha]
  · intro cm sec d e hget hnf
    simp [SyncDeployment, hget, isNotFoundErr, hnf]

/-- Witness for the amended C4: each propagation case evaluated on a concrete
failing adapter. -/
theorem step_error_propagation_witness :
    SyncRoute envRouteErr cfg0 = (none, false, some eBoom) ∧
    SyncService envSvcErr cfg0 = (none, false, some eBoom) ∧
    SyncConfigMap envCmErr cfg0 (some rtHosted) = (none, false, some eBoom) ∧
    SyncSecret envSecretGetErr cfg0 = (none, false, some eBoom) ∧
    SyncSecret envSecretGetErrEmpty cfg0 =
      (none, true,
       some (GoErr.mk false "secret not found, creating new secret, create error = <nil>")) ∧
    SyncOAuthClient envOauthGetErr cfg0 (some { value := "sek" }) (some rtHosted) =
      (none, false, some (GoErr.mk false "oauth client for console does not exist.")) ∧
    SyncOAuthClient envOauthApplyErr cfg0 (some { value := "sek" }) (some rtHosted) =
      (none, false, some eBoom) ∧
    SyncDeployment envDepGetErr cfg0 (some { data := "cm" }) (some { value := "sek" }) =
      (none, false, some eBoom) ∧
    SyncDeployment envDepUpdErr cfg0 (some { data := "cm" }) (some { value := "sek" }) =
      (none, false, some eBoom) ∧
    SyncDeployment envDepNFCreateErr cfg0 (some { data := "cm" }) (some { value := "sek" }) =
      (none, true,
       some (GoErr.mk false
        "deployment not found, creating new deployment, create error = quota exceeded")) :=
  ⟨(step_error_propagation envRouteErr cfg0).1 eBoom rfl,
   (step_error_propagation envSvcErr cfg0).2.1 eBoom rfl,
   (step_error_propagation envCmErr cfg0).2.2.1 (some rtHosted) eBoom rfl,
   (step_error_propagation envSecretGetErr cfg0).2.2.2.1 { value := "sek" } eBoom rfl rfl
     (by decide),
   (step_error_propagation envSecretGetErrEmpty cfg0).2.2.2.2.1 { value := "" } eBoom rfl rfl
     rfl,
   (step_error_propagation envOauthGetErr cfg0).2.2.2.2.2.1 eBoom (some { value := "sek" })
     (some rtHosted) rfl,
   (step_error_propagation envOauthApplyErr cfg0).2.2.2.2.2.2.1 (some { value := "sek" })
     (some rtHosted) eBoom rfl rfl,
   (step_error_propagation envDepGetErr cfg0).2.2.2.2.2.2.2.1 (some { data := "cm" })
     (some { value := "sek" }) { data := "dep" } eBoom rfl rfl,
   (step_error_propagation envDepUpdErr cfg0).2.2.2.2.2.2.2.2.1 (some { data := "cm" })
     (some { value := "sek" }) { data := "dep" } rfl rfl eBoom rfl,
   (step_error_propagation envDepNFCreateErr cfg0).2.2.2.2.2.2.2.2.2 (some { data := "cm" })
     (some { value := "sek" }) { data := "dep" } eNF rfl rfl⟩

/-- C5: if the backend returns a route whose `Spec.Host` is empty (and no
error), `SyncRoute` returns a nil route and a non-nil error
(`"Waiting on Route.Spec.Host"`), and the pass stops with only the route step
invoked — configmap, secret, oauth and deployment never run. -/
theorem SyncRoute_empty_host (co : Env) (cfg : Console) (rt : Route) (b : Bool) :
    co.GetOrCreateRoute (co.DefaultRoute cfg) = (rt, b, none) → rt.spec.host = "" →
    SyncRoute co cfg = (none, false, some (GoErr.mk false "Waiting on Route.Spec.Host")) ∧
    syncRun co cfg =
      ((cfg, false, some (GoErr.mk false "Waiting on Route.Spec.Host")), [StepName.route]) := by
  intro hg hh
  have h1 : SyncRoute co cfg =
      (none, false, some (GoErr.mk false "Waiting on Route.Spec.Host")) := by
    simp [SyncRoute, hg, hh]
  exact ⟨h1, by simp only [syncRun, h1]⟩

/-- Witness for C5: an adapter whose route exists but has no host yet. -/
theorem SyncRoute_empty_host_witness :
    SyncRoute envHostless cfg0 =
      (none, false, some (GoErr.mk false "Waiting on Route.Spec.Host")) ∧
    syncRun envHostless cfg0 =
      ((cfg0, false, some (GoErr.mk false "Waiting on Route.Spec.Host")), [StepName.route]) :=
  SyncRoute_empty_host envHostless cfg0 { spec := { host := "" } } true rfl rfl

/-- C6: evaluation of `setStatus` at the failing input — the route pointer is
nil (absent route).  The Go code dereferences `rt.Spec.Host` unconditionally,
a nil-pointer panic (modelled as `none`): the projector does NOT tolerate a
missing route, contradicting its own doc comment ("account for a nil return
value") and the spec. -/
theorem setStatus_nil_route_panics :
    setStatus { defaultHostName := "", oauthSecret := "" } none none none none none none =
      none := rfl

/-- C7: when all six steps complete without error, `sync_v400` returns a nil
error, the original config, and a changed flag equal to the OR of the six
step changed-flags. -/
theorem sync_v400_changed_or (co : Env) (cfg : Console) :
    (SyncRoute co cfg).2.2 = none → (SyncService co cfg).2.2 = none →
    (SyncConfigMap co cfg (SyncRoute co cfg).1).2.2 = none →
    (SyncSecret co cfg).2.2 = none →
    (SyncOAuthClient co cfg (SyncSecret co cfg).1 (SyncRoute co cfg).1).2.2 = none →
    (SyncDeployment co cfg (SyncConfigMap co cfg (SyncRoute co cfg).1).1
        (SyncSecret co cfg).1).2.2 = none →
    sync_v400 co cfg =
      (cfg, (SyncRoute co cfg).2.1 || (SyncService co cfg).2.1 ||
        (SyncConfigMap co cfg (SyncRoute co cfg).1).2.1 || (SyncSecret co cfg).2.1 ||
        (SyncOAuthClient co cfg (SyncSecret co cfg).1 (SyncRoute co cfg).1).2.1 ||
        (SyncDeployment co cfg (SyncConfigMap co cfg (SyncRoute co cfg).1).1
            (SyncSecret co cfg).1).2.1, none) := by
  intro h1 h2 h3 h4 h5 h6
  simp only [sync_v400, syncRun, h1, h2, h3, h4, h5, h6, Bool.false_or, Bool.or_assoc]

/-- Witness for C7: an error-free pass in which only the service apply
reports a change, so the OR of the step flags — and the returned flag — is
`true`. -/
theorem sync_v400_changed_or_witness :
    sync_v400 envSvcChanged cfg0 = (cfg0, true, none) :=
  sync_v400_changed_or envSvcChanged cfg0 rfl rfl rfl rfl rfl rfl

/-- C9: on every execution path — early error, just-created stop, or full
completion — `sync_v400` hands back exactly the `consoleConfig` it was given:
the desired-state descriptor is only read, never replaced or rewritten. -/
theorem sync_v400_config_preserved (co : Env) (cfg : Console) :
    (sync_v400 co cfg).1 = cfg := by
  simp only [sync_v400, syncRun]
  repeat' split <;> try rfl

/-- C8: `secretAndOauthMatch` is a total function of its two inputs defined
in this pure model (no effects, cannot fail) and returns `true` exactly when
the secret's string value equals the oauth client's secret string. -/
theorem secretAndOauthMatch_iff (sec : Option Secret) (oa : Option OAuthClient) :
    secretAndOauthMatch sec oa = true ↔
      secretGetSecretString sec = oauthGetSecretString oa := by
  simp [secretAndOauthMatch]

/-- C10: `setStatus` takes `cs` by value (Go struct parameter), so the value
the caller observes after the call is its original status, for every
combination of inputs — even though the callee's local copy is genuinely
rewritten (second and third conjuncts exhibit a run whose local result
differs from the input). -/
theorem setStatus_by_value_frame :
    (∀ (cs : ConsoleStatus) (svc : Option Service) (rt : Option Route) (cm : Option ConfigMap)
        (dep : Option Deployment) (oa : Option OAuthClient) (sec : Option Secret),
      setStatusCallerView cs svc rt cm dep oa sec = cs) ∧
    setStatus { defaultHostName := "", oauthSecret := "" } none (some rtHosted) none none none
        none =
      some { defaultHostName := "console.example.com", oauthSecret := "valid" } ∧
    ({ defaultHostName := "console.example.com", oauthSecret := "valid" } : ConsoleStatus) ≠
      { defaultHostName := "", oauthSecret := "" } := by
  refine ⟨fun _ _ _ _ _ _ _ => rfl, rfl, ?_⟩
  decide
